import Mathlib

/-!
Verification development for the mentalsupport chat platform
(connection-role registry, escalation evaluator, escalation state machine,
message dispatch loop), shallowly embedded from the backend sources
described in the repository (chat_health_service.py, chat.py,
connection_manager.py, ai_lock.py, appointments.py) and the frontend
sources (useWebSocket.ts, chat/[sessionId]/page.tsx, chatStore.ts).
-/

namespace NeuroSupport

/-- Containment of one character list inside another, by scanning every
suffix of the haystack for the needle as a prefix. -/
def containsSub : List Char → List Char → Bool
  | _, [] => true
  | [], _ :: _ => false
  | h :: t, n :: ns => ((n :: ns).isPrefixOf (h :: t)) || containsSub t (n :: ns)

/-- Substring containment on strings, written over the underlying
character lists; models the Python operator needle in haystack. -/
def strContains (haystack needle : String) : Bool :=
  containsSub haystack.data needle.data

/-- Character-list based lowercasing (Python str.lower on the ASCII
range relevant here). -/
def toLowerStr (s : String) : String :=
  String.mk (s.data.map Char.toLower)

/-- Character-list based trim of leading and trailing whitespace (Python
str.strip). -/
def trimStr (s : String) : String :=
  String.mk (((s.data.dropWhile Char.isWhitespace).reverse.dropWhile Char.isWhitespace).reverse)

/-- Character-list based prefix truncation (Python s[:n]). -/
def takeStr (n : Nat) (s : String) : String :=
  String.mk (s.data.take n)

/-- Python trailing slice `l[-n:]`. -/
def lastN (n : Nat) (l : List α) : List α :=
  l.drop (l.length - n)

/-- Connection roles of the closed set accepted by the WebSocket endpoint
(query parameter role, rejected otherwise). -/
inductive Role
  | user
  | therapist
deriving DecidableEq

/-- Sender types of persisted chat messages. -/
inductive SenderType
  | user
  | therapist
  | ai
  | system
deriving DecidableEq

/-- A persisted chat message: sender, content, and the optional emotion
label and confidence attached by the analyzers. -/
structure Message where
  sender : SenderType
  content : String
  emotion : Option String := none
  confidence : Option ℚ := none
deriving DecidableEq

/-- Escalation reasons; ai_signal is the reason recorded when the AI
responder returns the reserved sentinel (the backend logs call it the
Gemini-detected escalation). -/
inductive Reason
  | user_request
  | ai_repetition
  | emotional_distress
  | low_ai_confidence
  | ai_signal
deriving DecidableEq

/-- States of the user_accepted column of chat_escalations. -/
inductive EscStatus
  | pending
  | accepted
  | declined
deriving DecidableEq

/-- The per-session escalation record (chat_escalations row; session_id is
UNIQUE so a session holds at most one, modelled as an Option field of the
session state). -/
structure EscalationRecord where
  reason : Reason
  status : EscStatus
  appointment_id : Option Nat := none
deriving DecidableEq

/-- Keyword set of chat_health_service.INTENT_KEYWORDS (final enhanced
list). -/
def INTENT_KEYWORDS : List String :=
  ["therapist", "human", "real person", "appointment", "book", "someone",
   "professional", "doctor", "counselor", "help me please",
   "talk to someone", "speak to someone", "need help", "schedule",
   "meet with", "need a therapist", "need therapist", "want therapist",
   "see a therapist"]

/-- chat_health_service.check_user_intent: lowercase the raw message and
test each intent keyword for substring containment. -/
def check_user_intent (message_content : String) : Bool :=
  INTENT_KEYWORDS.any (fun keyword => strContains (toLowerStr message_content) keyword)

/-- Normalization applied to an AI response inside detect_ai_repetition:
msg.content.strip().lower()[:100]. -/
def normalizeResponse (content : String) : String :=
  takeStr 100 (toLowerStr (trimStr content))

/-- The count stored for a normalized response in the running dictionary
(Python response_counts.get(normalized, 0)). -/
def lookupCount (counts : List (String × Nat)) (k : String) : Nat :=
  (counts.lookup k).getD 0

/-- The counting loop of detect_ai_repetition: a running count per
normalized response, returning True as soon as some count reaches 3. -/
def repetitionLoop : List Message → List (String × Nat) → Bool
  | [], _ => false
  | m :: rest, counts =>
    let key := normalizeResponse m.content
    let c := lookupCount counts key + 1
    if 3 ≤ c then true else repetitionLoop rest ((key, c) :: counts)

/-- chat_health_service.detect_ai_repetition: among the AI-sender messages
of the trailing ten entries of the given history (messages[-10:]), detect
any normalized response occurring three or more times. -/
def detect_ai_repetition (messages : List Message) : Bool :=
  repetitionLoop ((lastN 10 messages).filter (fun m => m.sender == SenderType.ai)) []

/-- chat_health_service.NEGATIVE_EMOTIONS. -/
def NEGATIVE_EMOTIONS : List String := ["sadness", "fear", "anger", "anxiety"]

/-- chat_health_service.LOW_CONFIDENCE_THRESHOLD (0.55). -/
def LOW_CONFIDENCE_THRESHOLD : ℚ := 55 / 100

/-- chat_health_service.RECENT_MESSAGE_COUNT. -/
def RECENT_MESSAGE_COUNT : Nat := 5

/-- True when a message is a visitor message carrying a negative emotion
label. -/
def isNegativeEmotionMsg (m : Message) : Bool :=
  m.sender == SenderType.user &&
    (match m.emotion with
     | some e => NEGATIVE_EMOTIONS.contains e
     | none => false)

/-- True when a message is an AI message whose reported confidence is
below the threshold. -/
def isLowConfidenceAiMsg (m : Message) : Bool :=
  m.sender == SenderType.ai &&
    (match m.confidence with
     | some c => decide (c < LOW_CONFIDENCE_THRESHOLD)
     | none => false)

/-- chat_health_service.evaluate_chat_health with the OR logic of the
final version: AI repetition first, then emotional distress (three or
more negative visitor emotions in the last five messages), then low AI
confidence (two or more low-confidence AI responses in the last five
messages). Returns the struggling reason, if any. -/
def evaluate_chat_health (messages : List Message) : Option Reason :=
  if detect_ai_repetition messages then
    some Reason.ai_repetition
  else if 3 ≤ ((lastN RECENT_MESSAGE_COUNT messages).countP (fun m => isNegativeEmotionMsg m)) then
    some Reason.emotional_distress
  else if 2 ≤ ((lastN RECENT_MESSAGE_COUNT messages).countP (fun m => isLowConfidenceAiMsg m)) then
    some Reason.low_ai_confidence
  else
    none

/-- Accept tokens recognized by the chat router while an escalation is
pending. -/
def ACCEPT_KEYWORDS : List String := ["yes", "okay", "book"]

/-- Decline tokens recognized by the chat router while an escalation is
pending. -/
def DECLINE_KEYWORDS : List String := ["no", "not now"]

/-- Acceptance detection on the pending-escalation reply. -/
def user_says_yes (content : String) : Bool :=
  ACCEPT_KEYWORDS.any (fun keyword => strContains (toLowerStr content) keyword)

/-- Decline detection on the pending-escalation reply. -/
def user_says_no (content : String) : Bool :=
  DECLINE_KEYWORDS.any (fun keyword => strContains (toLowerStr content) keyword)

/-- The reserved sentinel the AI responder may emit to signal escalation. -/
def ESCALATE_TOKEN : String := "<<ESCALATE>>"

/-- Prompt text of the SYSTEM_SUGGESTION frame per reason (intent match
uses the dedicated wording; the health reasons use the generic wording). -/
def suggestionText (r : Reason) : String :=
  match r with
  | Reason.user_request =>
      "I understand you\x27d like to speak with a therapist. Would you like me to book an appointment for you right away?"
  | _ =>
      "I want to make sure you get the best support. It might help to talk with a professional therapist. Would you like me to book an appointment for you?"

/-- Announcement broadcast when a therapist connection registers. -/
def therapistJoinedText : String :=
  "Therapist has joined. AI is disabled."

/-- Outbound frames delivered by the routing primitives. -/
inductive Frame
  | chatMsg (sender : SenderType) (content : String)
  | relayMsg (sender : SenderType) (content : String)
  | suggestion (reason : Reason) (text : String)
  | escalationAccepted
  | systemMsg (text : String)
deriving DecidableEq

/-- Inbound WebSocket frame: the content plus the display-only
frame-supplied sender field the client includes. -/
structure InFrame where
  content : String
  sender_field : Option String := none
deriving DecidableEq

/-- Per-session server state: therapist-socket presence
(connection_manager.has_therapist), the permanent AI kill-switch flag
(membership in ai_lock.AI_DISABLED_SESSIONS), persisted messages, the
unique escalation record, the outbound frames delivered so far, and a
counter of AI-responder invocations. -/
structure Session where
  hasTherapist : Bool := false
  aiDisabled : Bool := false
  messages : List Message := []
  escalation : Option EscalationRecord := none
  frames : List Frame := []
  aiCalls : Nat := 0
deriving DecidableEq

/-- ai_lock.is_ai_disabled. -/
def is_ai_disabled (s : Session) : Bool := s.aiDisabled

/-- connection_manager.has_therapist. -/
def has_therapist (s : Session) : Bool := s.hasTherapist

/-- chat_service.get_ai_response: the global kill switch is checked at
function entry and an empty string returned when the session is
blacklisted; otherwise the underlying generator output (here the oracle
argument aiOut) is returned. -/
def get_ai_response (s : Session) (aiOut : String) : String :=
  if is_ai_disabled s then "" else aiOut

/-- Tail of the dispatch loop from the point where the AI responder is
invoked: count the call, check the returned text for the reserved
sentinel (substring test) and either perform the create-if-absent
NONE-to-PENDING transition with the ai_signal reason, or persist and
broadcast the text as an AI message. -/
def aiRespond (s : Session) (aiOut : String) (aiConf : Option ℚ) : Session :=
  let s1 : Session := { s with aiCalls := s.aiCalls + 1 }
  let resp := get_ai_response s1 aiOut
  if strContains resp ESCALATE_TOKEN then
    match s1.escalation with
    | none =>
        { s1 with
          escalation := some { reason := Reason.ai_signal, status := EscStatus.pending },
          frames := s1.frames ++ [Frame.suggestion Reason.ai_signal (suggestionText Reason.ai_signal)] }
    | some _ => s1
  else
    { s1 with
      messages := s1.messages ++ [{ sender := SenderType.ai, content := resp, confidence := aiConf }],
      frames := s1.frames ++ [Frame.chatMsg SenderType.ai resp] }

/-- The WebSocket message handler for one inbound frame, composed from the
final backend iterations: the sender role is resolved from the
connection (never from the frame), the message is persisted with the
classifier output, the therapist-socket check routes and exits before any
AI logic, the kill switch exits next, then the pending-escalation reply
handling (accept stops; decline resolves and continues to the AI
response), then the priority checks (intent, chat health) each of which
stops, and only then the AI responder. -/
def handle_frame (connRole : Role) (s : Session) (f : InFrame)
    (emo : Option String) (emoConf : Option ℚ)
    (aiOut : String) (aiConf : Option ℚ) : Session :=
  let content := f.content
  let senderType := match connRole with
    | Role.user => SenderType.user
    | Role.therapist => SenderType.therapist
  let msg : Message :=
    match connRole with
    | Role.user => { sender := senderType, content := content, emotion := emo, confidence := emoConf }
    | Role.therapist => { sender := senderType, content := content }
  let s1 : Session := { s with messages := s.messages ++ [msg] }
  if has_therapist s1 then
    { s1 with frames := s1.frames ++ [Frame.relayMsg senderType content] }
  else
    let s2 : Session := { s1 with frames := s1.frames ++ [Frame.chatMsg senderType content] }
    match connRole with
    | Role.therapist => s2
    | Role.user =>
      if is_ai_disabled s2 then s2
      else
        match s2.escalation with
        | some rec =>
          if rec.status == EscStatus.pending && user_says_yes content then
            { s2 with
              escalation := some { rec with status := EscStatus.accepted },
              frames := s2.frames ++ [Frame.escalationAccepted] }
          else if rec.status == EscStatus.pending && user_says_no content then
            aiRespond { s2 with escalation := some { rec with status := EscStatus.declined } } aiOut aiConf
          else
            aiRespond s2 aiOut aiConf
        | none =>
          if check_user_intent content then
            { s2 with
              escalation := some { reason := Reason.user_request, status := EscStatus.pending },
              frames := s2.frames ++ [Frame.suggestion Reason.user_request (suggestionText Reason.user_request)] }
          else
            match evaluate_chat_health s2.messages with
            | some r =>
              { s2 with
                escalation := some { reason := r, status := EscStatus.pending },
                frames := s2.frames ++ [Frame.suggestion r (suggestionText r)] }
            | none => aiRespond s2 aiOut aiConf

/-- Session-level events: a therapist connection registering (which adds
the session to the permanent AI blacklist and notifies the other
participants on every connect), a therapist disconnect (which only
removes the socket), and an inbound enduser frame with its classifier and
AI-responder oracle outputs. -/
inductive Event
  | connectTherapist
  | disconnectTherapist
  | userMsg (content : String) (emo : Option String) (emoConf : Option ℚ)
      (aiOut : String) (aiConf : Option ℚ)

/-- One event step of the session. -/
def step (s : Session) : Event → Session
  | Event.connectTherapist =>
      { s with
        hasTherapist := true,
        aiDisabled := true,
        frames := s.frames ++ [Frame.systemMsg therapistJoinedText] }
  | Event.disconnectTherapist => { s with hasTherapist := false }
  | Event.userMsg content emo emoConf aiOut aiConf =>
      handle_frame Role.user s { content := content } emo emoConf aiOut aiConf

/-- Run a list of events from a session state. -/
def run (s : Session) (evs : List Event) : Session :=
  evs.foldl step s

/-- The empty fresh session. -/
def initSession : Session := {}

/-- Number of persisted AI-role messages. -/
def aiMessageCount (s : Session) : Nat :=
  s.messages.countP (fun m => m.sender == SenderType.ai)

/-- Number of therapist-joined announcements delivered. -/
def announcementCount (s : Session) : Nat :=
  s.frames.countP (fun fr => fr == Frame.systemMsg therapistJoinedText)

/-- Control points of a task processing an escalation trigger: before the
existence query, before the insert, before the suggestion send, and
finished. -/
inductive RacePhase
  | atCheck
  | atInsert
  | atSend
  | finished
deriving DecidableEq

/-- One task processing an escalation trigger, for the creation-race
analysis: its control point, the result of its existence check, and
whether its insert succeeded. -/
structure RaceTask where
  phase : RacePhase := RacePhase.atCheck
  sawAbsent : Bool := false
  created : Bool := false
deriving DecidableEq

/-- Shared state for two racing escalation-trigger tasks on one session:
whether the unique chat_escalations row exists, how many successful
creations happened, and how many system_suggestion frames were sent. -/
structure RaceState where
  recordExists : Bool := false
  createdCount : Nat := 0
  suggestions : Nat := 0
  t1 : RaceTask := {}
  t2 : RaceTask := {}
deriving DecidableEq

/-- One step of a trigger-processing task. Step 0 is the existence query
on chat_escalations; step 1 is the insert, atomic at the store because of
the session_id UNIQUE constraint (a concurrent row makes the insert fail
and the task takes no further action, treating the escalation as already
suggested); step 2 delivers the system_suggestion only when this task
created the row. Returns the new task, the new record flag, and whether
an insert or a send happened. -/
def escTaskStep (record : Bool) (t : RaceTask) : RaceTask × Bool × Bool × Bool :=
  match t.phase with
  | RacePhase.atCheck =>
      ({ t with phase := RacePhase.atInsert, sawAbsent := !record }, record, false, false)
  | RacePhase.atInsert =>
      if t.sawAbsent then
        if record then ({ t with phase := RacePhase.atSend, created := false }, record, false, false)
        else ({ t with phase := RacePhase.atSend, created := true }, true, true, false)
      else ({ t with phase := RacePhase.atSend }, record, false, false)
  | RacePhase.atSend =>
      ({ t with phase := RacePhase.finished }, record, false, t.created)
  | RacePhase.finished => (t, record, false, false)

/-- Interleaving step: true schedules task one, false task two. -/
def raceStep (s : RaceState) (first : Bool) : RaceState :=
  if first then
    match escTaskStep s.recordExists s.t1 with
    | (t, r, ins, sent) =>
      { s with t1 := t, recordExists := r,
               createdCount := s.createdCount + (if ins then 1 else 0),
               suggestions := s.suggestions + (if sent then 1 else 0) }
  else
    match escTaskStep s.recordExists s.t2 with
    | (t, r, ins, sent) =>
      { s with t2 := t, recordExists := r,
               createdCount := s.createdCount + (if ins then 1 else 0),
               suggestions := s.suggestions + (if sent then 1 else 0) }

/-- Run the two racing tasks under an arbitrary interleaving schedule. -/
def runRace (sched : List Bool) : RaceState :=
  sched.foldl raceStep {}

/-- Joint client-and-backend state of the acceptance and booking flow:
the escalation record, the number of appointment rows created by the
auto-book endpoint, the number of auto-book calls issued, the number of
client error alerts, and the client UI flags. -/
structure BookingState where
  esc : Option EscalationRecord := none
  appointments : Nat := 0
  bookingCalls : Nat := 0
  errorAlerts : Nat := 0
  showEscalation : Bool := false
  bookingConfirmed : Bool := false
  framesOut : List Frame := []
deriving DecidableEq

/-- POST /api/appointments/auto-book: every call is counted; a successful
call creates a fresh appointment row (scheduled two hours ahead) and
writes its id onto the escalation record; a failed call writes nothing. -/
def auto_book (s : BookingState) (ok : Bool) : BookingState :=
  let s1 : BookingState := { s with bookingCalls := s.bookingCalls + 1 }
  if ok then
    { s1 with
      appointments := s1.appointments + 1,
      esc := match s1.esc with
             | some r => some { r with appointment_id := some s1.appointments }
             | none => none }
  else s1

/-- frontend handleAcceptEscalation composed with the backend reply
handling it triggers: the client first sends the acceptance message
(which the backend uses to move a pending record to accepted and emit
ESCALATION_ACCEPTED), then calls the auto-book endpoint; on success the
escalation UI is hidden and the confirmation shown, on failure an alert
is raised and the escalation UI restored so the user may retry. -/
def handleAcceptEscalation (s : BookingState) (ok : Bool) : BookingState :=
  let s1 : BookingState :=
    match s.esc with
    | some r =>
      if r.status == EscStatus.pending then
        { s with esc := some { r with status := EscStatus.accepted },
                 framesOut := s.framesOut ++ [Frame.escalationAccepted] }
      else s
    | none => s
  let s2 := auto_book s1 ok
  if ok then
    { s2 with showEscalation := false, bookingConfirmed := true }
  else
    { s2 with errorAlerts := s2.errorAlerts + 1, showEscalation := true }

/-- A message as kept by the frontend chat store. -/
structure ClientMessage where
  id : String
  session_id : String
  sender_type : String
  content : String
deriving DecidableEq

/-- Parsed inbound WebSocket data handled by useWebSocket ws.onmessage. -/
inductive InboundData
  | message (id session_id sender_type content : String)
  | typing (sender_type : String) (is_typing : Bool)
  | system_suggestion (text reason : String)
  | escalation_accepted (text : String)
  | system_message (session_id text : String)
deriving DecidableEq

/-- Frontend chat state touched by the WebSocket handler. -/
structure ClientState where
  messages : List ClientMessage := []
  isTherapistTyping : Bool := false
  isAiTyping : Bool := false
  suggestionEvents : Nat := 0
  acceptedEvents : Nat := 0
deriving DecidableEq

/-- useWebSocket ws.onmessage: ordinary messages are appended as
received, typing toggles the indicators, SYSTEM_SUGGESTION and
ESCALATION_ACCEPTED dispatch DOM events, and SYSTEM_MESSAGE is appended
to the conversation as a message whose sender_type is the ai one, under
a synthetic client-generated id built from the current time. -/
def onmessage (st : ClientState) (now : Nat) (d : InboundData) : ClientState :=
  match d with
  | InboundData.message id sid stype content =>
      { st with messages := st.messages ++ [{ id := id, session_id := sid, sender_type := stype, content := content }] }
  | InboundData.typing stype isT =>
      if stype == "therapist" then { st with isTherapistTyping := isT }
      else if stype == "ai" then { st with isAiTyping := isT }
      else st
  | InboundData.system_suggestion _ _ =>
      { st with suggestionEvents := st.suggestionEvents + 1 }
  | InboundData.escalation_accepted _ =>
      { st with acceptedEvents := st.acceptedEvents + 1 }
  | InboundData.system_message sid text =>
      { st with messages := st.messages ++
          [{ id := "system-" ++ toString now, session_id := sid, sender_type := "ai", content := text }] }

/-- Modelled from the spec: the repetition detector as the specification
words it, over the ai-role messages of a trailing window of the default
size five, for comparison with the source detector detect_ai_repetition
(which slices the trailing ten entries). -/
def specRepetitionWindow5 (messages : List Message) : Bool :=
  let aiMsgs := (lastN 5 messages).filter (fun m => m.sender == SenderType.ai)
  aiMsgs.any (fun m =>
    3 ≤ aiMsgs.countP (fun m2 => normalizeResponse m2.content == normalizeResponse m.content))

/-- True for the control points strictly after the insert. -/
def pastInsert (p : RacePhase) : Bool :=
  match p with
  | RacePhase.atCheck => false
  | RacePhase.atInsert => false
  | _ => true

/-- True for the control points strictly after the existence check. -/
def pastCheck (p : RacePhase) : Bool :=
  match p with
  | RacePhase.atCheck => false
  | _ => true

/-- Inductive invariant of the escalation-creation race: the record
exists exactly when some task created it, at most one task created it,
the counters agree with the task states, a creator is past its insert,
and a task that is past its check (or past a failed insert) without
having created the record witnessed an existing record. -/
def raceInv (s : RaceState) : Prop :=
  s.recordExists = (s.t1.created || s.t2.created)
  ∧ (s.t1.created && s.t2.created) = false
  ∧ s.createdCount = (if s.t1.created then 1 else 0) + (if s.t2.created then 1 else 0)
  ∧ s.suggestions = (if s.t1.created && (s.t1.phase == RacePhase.finished) then 1 else 0)
      + (if s.t2.created && (s.t2.phase == RacePhase.finished) then 1 else 0)
  ∧ (s.t1.created = true → pastInsert s.t1.phase = true)
  ∧ (s.t2.created = true → pastInsert s.t2.phase = true)
  ∧ (pastCheck s.t1.phase = true → s.t1.sawAbsent = false → s.recordExists = true)
  ∧ (pastCheck s.t2.phase = true → s.t2.sawAbsent = false → s.recordExists = true)
  ∧ (pastInsert s.t1.phase = true → s.t1.sawAbsent = true → s.t1.created = false → s.recordExists = true)
  ∧ (pastInsert s.t2.phase = true → s.t2.sawAbsent = true → s.t2.created = false → s.recordExists = true)

/-- A session whose escalation record is pending and unresolved. -/
def pendingSession : Session :=
  { escalation := some { reason := Reason.user_request, status := EscStatus.pending } }

/-- A booking-flow state with a pending escalation and the suggestion
showing. -/
def pendingBooking : BookingState :=
  { esc := some { reason := Reason.user_request, status := EscStatus.pending },
    showEscalation := true }

/-- History with three identical AI replies followed by five other
messages: inside the trailing ten, outside the trailing five. -/
def C7_example_list : List Message :=
  [{ sender := SenderType.ai, content := "loop" },
   { sender := SenderType.ai, content := "loop" },
   { sender := SenderType.ai, content := "loop" },
   { sender := SenderType.user, content := "a" },
   { sender := SenderType.user, content := "b" },
   { sender := SenderType.user, content := "c" },
   { sender := SenderType.user, content := "d" },
   { sender := SenderType.user, content := "e" }]

/-! Helper lemmas. -/

theorem lookupCount_cons_self (acc : List (String × Nat)) (k : String) (c : Nat) :
    lookupCount ((k, c) :: acc) k = c := by
  simp [lookupCount, List.lookup]

theorem lookupCount_cons_ne (acc : List (String × Nat)) (k k2 : String) (c : Nat)
    (h : k2 ≠ k) : lookupCount ((k, c) :: acc) k2 = lookupCount acc k2 := by
  simp [lookupCount, List.lookup, beq_eq_false_iff_ne.mpr h]

/-- The early-return counting loop reports true exactly when some element
of the list reaches a total of three, counting the occurrences in the
list together with the count already accumulated for its key. -/
theorem repetitionLoop_spec (l : List Message) (acc : List (String × Nat)) :
    repetitionLoop l acc = true ↔
      ∃ m ∈ l, 3 ≤ lookupCount acc (normalizeResponse m.content)
          + l.countP (fun m2 => normalizeResponse m2.content == normalizeResponse m.content) := by
  induction l generalizing acc with
  | nil => simp [repetitionLoop]
  | cons m rest ih =>
    simp only [repetitionLoop]
    by_cases h3 : 3 ≤ lookupCount acc (normalizeResponse m.content) + 1
    · simp only [h3, if_true, true_iff]
      refine ⟨m, List.mem_cons_self m rest, ?_⟩
      rw [List.countP_cons]
      simp only [beq_self_eq_true, if_true]
      omega
    · simp only [h3, if_false]
      rw [ih]
      constructor
      · rintro ⟨m2, hm2, hb⟩
        by_cases hk : normalizeResponse m2.content = normalizeResponse m.content
        · rw [hk, lookupCount_cons_self] at hb
          refine ⟨m2, List.mem_cons_of_mem m hm2, ?_⟩
          rw [List.countP_cons, hk]
          simp only [beq_self_eq_true, if_true]
          omega
        · rw [lookupCount_cons_ne _ _ _ _ hk] at hb
          refine ⟨m2, List.mem_cons_of_mem m hm2, ?_⟩
          rw [List.countP_cons]
          have hne : (normalizeResponse m.content == normalizeResponse m2.content) = false :=
            beq_eq_false_iff_ne.mpr (fun he => hk he.symm)
          rw [hne]
          simpa using hb
      · rintro ⟨m2, hm2, hb⟩
        rcases List.mem_cons.mp hm2 with heq | hm2r
        · subst heq
          rw [List.countP_cons] at hb
          simp only [beq_self_eq_true, if_true] at hb
          have hpos : 0 < rest.countP
              (fun m3 => normalizeResponse m3.content == normalizeResponse m2.content) := by
            by_contra hz
            push_neg at hz
            omega
          obtain ⟨m3, hm3, hp3⟩ := List.countP_pos_iff.mp hpos
          have hk3 : normalizeResponse m3.content = normalizeResponse m2.content :=
            eq_of_beq hp3
          refine ⟨m3, hm3, ?_⟩
          rw [hk3, lookupCount_cons_self]
          omega
        · by_cases hk : normalizeResponse m2.content = normalizeResponse m.content
          · refine ⟨m2, hm2r, ?_⟩
            rw [hk, lookupCount_cons_self]
            rw [List.countP_cons, hk] at hb
            simp only [beq_self_eq_true, if_true] at hb
            omega
          · refine ⟨m2, hm2r, ?_⟩
            rw [lookupCount_cons_ne _ _ _ _ hk]
            rw [List.countP_cons] at hb
            have hne : (normalizeResponse m.content == normalizeResponse m2.content) = false :=
              beq_eq_false_iff_ne.mpr (fun he => hk he.symm)
            rw [hne] at hb
            simpa using hb

/-- A step taken on an AI-disabled session keeps it disabled and appends
no AI message. -/
theorem step_disabled_no_ai (s : Session) (e : Event) (h : s.aiDisabled = true) :
    (step s e).aiDisabled = true ∧ aiMessageCount (step s e) = aiMessageCount s := by
  cases e with
  | connectTherapist => simp [step, aiMessageCount]
  | disconnectTherapist => exact ⟨h, rfl⟩
  | userMsg c emo ec ao ac =>
      by_cases hT : s.hasTherapist <;>
        simp [step, handle_frame, is_ai_disabled, has_therapist, h, hT,
          aiMessageCount, List.countP_append, List.countP_cons]

/-- Any run from an AI-disabled session appends no AI message. -/
theorem run_disabled_no_ai (s : Session) (evs : List Event) (h : s.aiDisabled = true) :
    aiMessageCount (run s evs) = aiMessageCount s := by
  induction evs generalizing s with
  | nil => rfl
  | cons e rest ih =>
      have h2 := step_disabled_no_ai s e h
      calc aiMessageCount (run s (e :: rest))
          = aiMessageCount (run (step s e) rest) := rfl
        _ = aiMessageCount (step s e) := ih (step s e) h2.1
        _ = aiMessageCount s := h2.2

theorem raceInv_init : raceInv {} := by
  refine ⟨rfl, rfl, rfl, rfl, ?_, ?_, ?_, ?_, ?_, ?_⟩ <;> simp [pastCheck, pastInsert]

set_option maxHeartbeats 2000000 in
theorem raceInv_step (s : RaceState) (b : Bool) (h : raceInv s) : raceInv (raceStep s b) := by
  obtain ⟨h1, h2, h3, h4, h5, h6, h7, h8, h9, h10⟩ := h
  cases b
  · cases hp : s.t2.phase <;>
      by_cases hs : s.t2.sawAbsent <;>
      by_cases hr : s.recordExists <;>
      simp_all [raceStep, escTaskStep, raceInv, pastInsert, pastCheck]
  · cases hp : s.t1.phase <;>
      by_cases hs : s.t1.sawAbsent <;>
      by_cases hr : s.recordExists <;>
      simp_all [raceStep, escTaskStep, raceInv, pastInsert, pastCheck] <;>
      omega

theorem raceInv_run (sched : List Bool) : raceInv (runRace sched) := by
  suffices h : ∀ s, raceInv s → raceInv (sched.foldl raceStep s) from h {} raceInv_init
  induction sched with
  | nil => exact fun s hs => hs
  | cons b rest ih => exact fun s hs => ih (raceStep s b) (raceInv_step s b hs)

/-! Claim theorems. -/

/-- C1: for every session, once any connection with role therapist has
ever existed for it, no message with the ai role is ever appended for
the remainder of its lifetime, even after the therapist disconnects:
along any event trace that contains a therapist connect, the number of
persisted AI messages never grows after that connect. -/
theorem C1_no_ai_message_after_therapist_ever_connected (pre post : List Event) :
    aiMessageCount (run initSession (pre ++ Event.connectTherapist :: post))
      = aiMessageCount (run initSession (pre ++ [Event.connectTherapist])) := by
  have hsplit : run initSession (pre ++ Event.connectTherapist :: post)
      = run (run initSession (pre ++ [Event.connectTherapist])) post := by
    have hl : pre ++ Event.connectTherapist :: post
        = (pre ++ [Event.connectTherapist]) ++ post := by
      simp
    rw [hl]
    simp [run, List.foldl_append]
  rw [hsplit]
  apply run_disabled_no_ai
  have hr : run initSession (pre ++ [Event.connectTherapist])
      = step (run initSession pre) Event.connectTherapist := by
    simp [run, List.foldl_append]
  rw [hr]
  rfl

/-- C2: under every interleaving of two near-simultaneous
escalation-trigger processings for one session, the per-session
uniqueness guarantee of the store admits at most one successful record
creation and at most one system_suggestion delivery; when both
processings complete, exactly one record was created and exactly one
suggestion delivered, the loser being rejected at the insert and taking
no further action. -/
theorem C2_escalation_race_single_record_and_suggestion (sched : List Bool) :
    (runRace sched).createdCount ≤ 1
    ∧ (runRace sched).suggestions ≤ 1
    ∧ ((runRace sched).t1.phase = RacePhase.finished →
       (runRace sched).t2.phase = RacePhase.finished →
       (runRace sched).createdCount = 1 ∧ (runRace sched).suggestions = 1) := by
  have hinv := raceInv_run sched
  revert hinv
  generalize runRace sched = s
  intro hinv
  obtain ⟨h1, h2, h3, h4, h5, h6, h7, h8, h9, h10⟩ := hinv
  refine ⟨?_, ?_, fun hf1 hf2 => ?_⟩
  · rw [h3]; split_ifs <;> simp_all
  · rw [h4]; split_ifs <;> simp_all
  · have hcre : s.t1.created = true ∨ s.t2.created = true := by
      by_contra hno
      push_neg at hno
      obtain ⟨hn1, hn2⟩ := hno
      simp only [ne_eq, Bool.not_eq_true] at hn1 hn2
      rw [hn1, hn2] at h1
      simp at h1
      cases hs1 : s.t1.sawAbsent
      · have hrec := h7 (by rw [hf1]; rfl) hs1
        rw [h1] at hrec
        exact Bool.false_ne_true hrec
      · have hrec := h9 (by rw [hf1]; rfl) hs1 hn1
        rw [h1] at hrec
        exact Bool.false_ne_true hrec
    cases hcre with
    | inl hc =>
        have hco : s.t2.created = false := by
          cases hc2b : s.t2.created
          · rfl
          · rw [hc, hc2b] at h2; simp at h2
        constructor
        · rw [h3, hc, hco]; simp
        · rw [h4, hc, hco, hf1]; simp
    | inr hc =>
        have hco : s.t1.created = false := by
          cases hc1b : s.t1.created
          · rfl
          · rw [hc1b, hc] at h2; simp at h2
        constructor
        · rw [h3, hc, hco]; simp
        · rw [h4, hc, hco, hf2]; simp

/-- Witness for C2: a concrete schedule in which both tasks complete,
yielding exactly one created record and one suggestion. -/
theorem C2_escalation_race_witness :
    (runRace [true, true, true, false, false, false]).t1.phase = RacePhase.finished
    ∧ (runRace [true, true, true, false, false, false]).t2.phase = RacePhase.finished
    ∧ ((runRace [true, true, true, false, false, false]).createdCount = 1
       ∧ (runRace [true, true, true, false, false, false]).suggestions = 1) :=
  ⟨by decide, by decide,
    (C2_escalation_race_single_record_and_suggestion
        [true, true, true, false, false, false]).2.2 (by decide) (by decide)⟩

/-- C3: the intent detector is checked first and unconditionally among
the escalation detectors: for an enduser message on a session with no
existing record (and not human-handled), a message containing an intent
keyword always yields the pending user_request record, with no AI
responder call and no AI message, whatever the message window contains. -/
theorem C3_intent_checked_first_user_request (s : Session) (content : String)
    (sf : Option String) (emo : Option String) (emoConf : Option ℚ)
    (aiOut : String) (aiConf : Option ℚ)
    (hesc : s.escalation = none) (hT : s.hasTherapist = false) (hD : s.aiDisabled = false)
    (hint : check_user_intent content = true) :
    handle_frame Role.user s { content := content, sender_field := sf } emo emoConf aiOut aiConf
      = { s with
          messages := s.messages ++ [{ sender := SenderType.user, content := content, emotion := emo, confidence := emoConf }],
          escalation := some { reason := Reason.user_request, status := EscStatus.pending },
          frames := s.frames ++ [Frame.chatMsg SenderType.user content,
                                 Frame.suggestion Reason.user_request (suggestionText Reason.user_request)] } := by
  simp [handle_frame, has_therapist, is_ai_disabled, hT, hD, hesc, hint]

/-- Witness for C3: the fresh-session first message requesting a
therapist escalates with reason user_request before any AI call. -/
theorem C3_intent_witness :
    handle_frame Role.user initSession { content := "I need a therapist", sender_field := none }
        none none "fallback reply" none
      = { initSession with
          messages := initSession.messages ++
            [{ sender := SenderType.user, content := "I need a therapist", emotion := none, confidence := none }],
          escalation := some { reason := Reason.user_request, status := EscStatus.pending },
          frames := initSession.frames ++
            [Frame.chatMsg SenderType.user "I need a therapist",
             Frame.suggestion Reason.user_request (suggestionText Reason.user_request)] } :=
  C3_intent_checked_first_user_request initSession "I need a therapist" none none none
    "fallback reply" none rfl rfl rfl (by decide)

set_option maxRecDepth 16000 in
/-- C4 counterexample: the claim asserts that while a PENDING record
exists no AI response is produced regardless of the reply, including the
decline turn; but on the decline turn the handler resolves the record
and then continues to the AI responder, which appends an AI message. -/
theorem C4_decline_turn_produces_ai_response_cex :
    (handle_frame Role.user pendingSession { content := "not now" } none none "I hear you." none).escalation
        = some { reason := Reason.user_request, status := EscStatus.declined }
    ∧ aiMessageCount (handle_frame Role.user pendingSession { content := "not now" } none none "I hear you." none) = 1
    ∧ (handle_frame Role.user pendingSession { content := "not now" } none none "I hear you." none).aiCalls = 1 := by
  decide

/-- C4 (amended): while an unresolved PENDING record exists the inbound
message is used as the accept or decline reply signal; an accepting
reply resolves to ACCEPTED and stops with no AI call and no AI message
that turn, but a declining reply resolves to DECLINED and processing
continues to the AI responder, and a non-matching reply leaves the
record PENDING and also continues to the AI responder. -/
theorem C4_amended_pending_reply_handling (s : Session) (rec : EscalationRecord)
    (content : String) (sf : Option String) (emo : Option String) (emoConf : Option ℚ)
    (aiOut : String) (aiConf : Option ℚ)
    (hesc : s.escalation = some rec) (hpend : rec.status = EscStatus.pending)
    (hT : s.hasTherapist = false) (hD : s.aiDisabled = false) :
    (user_says_yes content = true →
        (handle_frame Role.user s { content := content, sender_field := sf } emo emoConf aiOut aiConf).escalation
            = some { rec with status := EscStatus.accepted }
        ∧ (handle_frame Role.user s { content := content, sender_field := sf } emo emoConf aiOut aiConf).aiCalls = s.aiCalls
        ∧ aiMessageCount (handle_frame Role.user s { content := content, sender_field := sf } emo emoConf aiOut aiConf)
            = aiMessageCount s)
    ∧ (user_says_yes content = false → user_says_no content = true →
        (handle_frame Role.user s { content := content, sender_field := sf } emo emoConf aiOut aiConf).escalation
            = some { rec with status := EscStatus.declined }
        ∧ (handle_frame Role.user s { content := content, sender_field := sf } emo emoConf aiOut aiConf).aiCalls
            = s.aiCalls + 1)
    ∧ (user_says_yes content = false → user_says_no content = false →
        (handle_frame Role.user s { content := content, sender_field := sf } emo emoConf aiOut aiConf).escalation
            = some rec
        ∧ (handle_frame Role.user s { content := content, sender_field := sf } emo emoConf aiOut aiConf).aiCalls
            = s.aiCalls + 1) := by
  refine ⟨fun hy => ?_, fun hy hn => ?_, fun hy hn => ?_⟩
  · simp [handle_frame, has_therapist, is_ai_disabled, hT, hD, hesc, hpend, hy,
      aiMessageCount, List.countP_append, List.countP_cons]
  · unfold handle_frame
    simp only [has_therapist, is_ai_disabled, hT, hD, hesc, hpend, hy, hn, aiRespond,
      get_ai_response, Bool.false_eq_true, if_false, beq_self_eq_true, Bool.and_self]
    split
    · simp_all
    · split
      · split <;> simp
      · simp_all
  · unfold handle_frame
    simp only [has_therapist, is_ai_disabled, hT, hD, hesc, hpend, hy, hn, aiRespond,
      get_ai_response, Bool.false_eq_true, if_false, beq_self_eq_true, Bool.and_self]
    split
    · simp_all
    · split <;> simp [hesc]

/-- Witness for C4 (amended): the concrete decline reply resolves the
record to DECLINED and the AI responder is invoked that same turn. -/
theorem C4_pending_reply_witness :
    (handle_frame Role.user pendingSession { content := "not now", sender_field := none }
        none none "I hear you." none).escalation
      = some { reason := Reason.user_request, status := EscStatus.declined, appointment_id := none }
    ∧ (handle_frame Role.user pendingSession { content := "not now", sender_field := none }
        none none "I hear you." none).aiCalls = pendingSession.aiCalls + 1 :=
  (C4_amended_pending_reply_handling pendingSession
      { reason := Reason.user_request, status := EscStatus.pending, appointment_id := none }
      "not now" none none none "I hear you." none rfl rfl rfl rfl).2.1 (by decide) (by decide)

/-- C5: the sender role used for routing and dispatch is resolved from
the registered role of the connection and never from frame content: two
frames on the same connection differing only in the frame-supplied
sender field are handled identically. -/
theorem C5_routing_ignores_frame_sender (connRole : Role) (s : Session) (c : String)
    (sf1 sf2 : Option String) (emo : Option String) (emoConf : Option ℚ)
    (aiOut : String) (aiConf : Option ℚ) :
    handle_frame connRole s { content := c, sender_field := sf1 } emo emoConf aiOut aiConf
      = handle_frame connRole s { content := c, sender_field := sf2 } emo emoConf aiOut aiConf := rfl

/-- C6: when the AI responder raw output equals the reserved sentinel on
a turn that reaches it, the session performs the NONE to PENDING
transition with reason ai_signal; the only persisted message that turn
is the user one, the sentinel is never persisted, and the delivered
suggestion text does not contain the sentinel. -/
theorem C6_sentinel_triggers_ai_signal_never_persisted (s : Session) (content : String)
    (sf : Option String) (emo : Option String) (emoConf : Option ℚ) (aiConf : Option ℚ)
    (hesc : s.escalation = none) (hT : s.hasTherapist = false) (hD : s.aiDisabled = false)
    (hint : check_user_intent content = false)
    (hhealth : evaluate_chat_health (s.messages ++
        [{ sender := SenderType.user, content := content, emotion := emo, confidence := emoConf }]) = none) :
    handle_frame Role.user s { content := content, sender_field := sf } emo emoConf ESCALATE_TOKEN aiConf
      = { s with
          messages := s.messages ++ [{ sender := SenderType.user, content := content, emotion := emo, confidence := emoConf }],
          escalation := some { reason := Reason.ai_signal, status := EscStatus.pending },
          frames := s.frames ++ [Frame.chatMsg SenderType.user content,
                                 Frame.suggestion Reason.ai_signal (suggestionText Reason.ai_signal)],
          aiCalls := s.aiCalls + 1 }
    ∧ strContains (suggestionText Reason.ai_signal) ESCALATE_TOKEN = false := by
  constructor
  · simp [handle_frame, has_therapist, is_ai_disabled, hT, hD, hesc, hint, hhealth,
      aiRespond, get_ai_response,
      show strContains ESCALATE_TOKEN ESCALATE_TOKEN = true from by decide]
  · decide

set_option maxRecDepth 16000 in
/-- Witness for C6: a fresh session whose first message matches no
detector and whose AI output is the sentinel. -/
theorem C6_sentinel_witness :
    handle_frame Role.user initSession { content := "hello", sender_field := none }
        none none ESCALATE_TOKEN none
      = { initSession with
          messages := initSession.messages ++
            [{ sender := SenderType.user, content := "hello", emotion := none, confidence := none }],
          escalation := some { reason := Reason.ai_signal, status := EscStatus.pending },
          frames := initSession.frames ++
            [Frame.chatMsg SenderType.user "hello",
             Frame.suggestion Reason.ai_signal (suggestionText Reason.ai_signal)],
          aiCalls := initSession.aiCalls + 1 }
    ∧ strContains (suggestionText Reason.ai_signal) ESCALATE_TOKEN = false :=
  C6_sentinel_triggers_ai_signal_never_persisted initSession "hello" none none none none
    rfl rfl rfl (by decide) (by decide)

set_option maxRecDepth 16000 in
/-- C7 counterexample: the claim says the repetition detector operates
over the trailing window of the default size five, but the source
detector slices the trailing ten entries of the evaluated history: on a
history whose three identical AI replies sit inside the last ten but
outside the last five messages, the source detector fires while the
five-message detector of the claim does not. -/
theorem C7_window_size_cex :
    detect_ai_repetition C7_example_list = true
    ∧ specRepetitionWindow5 C7_example_list = false := by
  decide

set_option maxRecDepth 16000 in
/-- C7 (amended): the repetition detector operates over the ai-role
messages of the trailing ten entries of the evaluated history, each
normalized by trimming, case-folding and truncation to a hundred
character prefix, and fires exactly when some normalized value occurs at
least three times among them; in particular three identical normalized
AI replies fire it and two do not. -/
theorem C7_amended_repetition_window10 :
    (∀ messages : List Message,
      detect_ai_repetition messages = true ↔
        ∃ m ∈ (lastN 10 messages).filter (fun m => m.sender == SenderType.ai),
          3 ≤ ((lastN 10 messages).filter (fun m => m.sender == SenderType.ai)).countP
                (fun m2 => normalizeResponse m2.content == normalizeResponse m.content))
    ∧ detect_ai_repetition (List.replicate 3 { sender := SenderType.ai, content := "same reply" }) = true
    ∧ detect_ai_repetition
        (List.replicate 2 { sender := SenderType.ai, content := "same reply" }
          ++ [{ sender := SenderType.ai, content := "different reply" }]) = false := by
  refine ⟨fun messages => ?_, by decide, by decide⟩
  unfold detect_ai_repetition
  rw [repetitionLoop_spec]
  simp [lookupCount]

set_option maxRecDepth 16000 in
/-- Witness for C7 (amended): the characterization applied to a concrete
history with three identical AI replies. -/
theorem C7_repetition_witness :
    detect_ai_repetition C7_example_list = true :=
  (C7_amended_repetition_window10.1 C7_example_list).mpr (by decide)

set_option maxRecDepth 16000 in
/-- C8 counterexample: the claim says only the first therapist
connection ever emits the handoff announcement; but the connect handler
notifies on every therapist connect, so a second connect re-emits it. -/
theorem C8_second_connect_reemits_cex :
    announcementCount (run initSession [Event.connectTherapist, Event.connectTherapist]) = 2 := by
  decide

/-- C8 (amended): every therapist connection registered for a session
emits the handoff system_message to the other participants and marks the
session AI-disabled (the flag is monotonic); the announcement is not
deduplicated, so a second or later therapist connect re-emits it. -/
theorem C8_amended_every_connect_announces (s : Session) :
    (step s Event.connectTherapist).frames = s.frames ++ [Frame.systemMsg therapistJoinedText]
    ∧ (step s Event.connectTherapist).aiDisabled = true
    ∧ (step s Event.connectTherapist).hasTherapist = true := ⟨rfl, rfl, rfl⟩

/-- C9 counterexample: the claim says that when the booking collaborator
fails during an acceptance the record remains PENDING; but the reply
handling marks the record ACCEPTED before the booking call, so after a
failed booking the record is ACCEPTED, not PENDING. -/
theorem C9_failed_booking_record_accepted_cex :
    (handleAcceptEscalation pendingBooking false).esc
        = some { reason := Reason.user_request, status := EscStatus.accepted }
    ∧ (handleAcceptEscalation pendingBooking false).appointments = 0 := by
  decide

/-- C9 (amended): on acceptance the record is marked ACCEPTED by the
reply handling before and independently of the booking call; a booking
failure writes no appointment and surfaces a retryable error with the
escalation prompt restored; the booking endpoint is invoked again on
every retry, a success after a failure books one appointment, and two
successful acceptances create two appointments, so the collaborator call
is not at-most-once per record. -/
theorem C9_amended_accept_booking_flow (s : BookingState) (r : EscalationRecord)
    (hesc : s.esc = some r) (hpend : r.status = EscStatus.pending) :
    ((handleAcceptEscalation s false).esc = some { r with status := EscStatus.accepted }
      ∧ (handleAcceptEscalation s false).appointments = s.appointments
      ∧ (handleAcceptEscalation s false).errorAlerts = s.errorAlerts + 1
      ∧ (handleAcceptEscalation s false).showEscalation = true)
    ∧ ((handleAcceptEscalation (handleAcceptEscalation s false) true).bookingCalls = s.bookingCalls + 2
      ∧ (handleAcceptEscalation (handleAcceptEscalation s false) true).appointments = s.appointments + 1)
    ∧ ((handleAcceptEscalation (handleAcceptEscalation s true) true).appointments = s.appointments + 2
      ∧ (handleAcceptEscalation (handleAcceptEscalation s true) true).bookingCalls = s.bookingCalls + 2) := by
  simp [handleAcceptEscalation, auto_book, hesc, hpend]

/-- Witness for C9 (amended): the concrete pending state run through a
failed and then repeated acceptances. -/
theorem C9_accept_booking_witness :
    ((handleAcceptEscalation pendingBooking false).esc
        = some { reason := Reason.user_request, status := EscStatus.accepted, appointment_id := none }
      ∧ (handleAcceptEscalation pendingBooking false).appointments = pendingBooking.appointments
      ∧ (handleAcceptEscalation pendingBooking false).errorAlerts = pendingBooking.errorAlerts + 1
      ∧ (handleAcceptEscalation pendingBooking false).showEscalation = true)
    ∧ ((handleAcceptEscalation (handleAcceptEscalation pendingBooking false) true).bookingCalls
          = pendingBooking.bookingCalls + 2
      ∧ (handleAcceptEscalation (handleAcceptEscalation pendingBooking false) true).appointments
          = pendingBooking.appointments + 1)
    ∧ ((handleAcceptEscalation (handleAcceptEscalation pendingBooking true) true).appointments
          = pendingBooking.appointments + 2
      ∧ (handleAcceptEscalation (handleAcceptEscalation pendingBooking true) true).bookingCalls
          = pendingBooking.bookingCalls + 2) :=
  C9_amended_accept_booking_flow pendingBooking
    { reason := Reason.user_request, status := EscStatus.pending, appointment_id := none } rfl rfl

/-- C10: every SYSTEM_MESSAGE frame received by the client is appended
to the visible conversation as a message whose sender_type is the ai
one, under a synthetic client-generated id, so system announcements
render exactly like ai-role messages. -/
theorem C10_system_message_appended_as_ai (st : ClientState) (now : Nat) (sid text : String) :
    onmessage st now (InboundData.system_message sid text)
      = { st with messages := st.messages ++
            [{ id := "system-" ++ toString now, session_id := sid, sender_type := "ai", content := text }] } := rfl

end NeuroSupport
